import Mathlib

/-!
Shallow embedding of the two HTTP services of this repository:

* the Mapbox gateway service (`src/unnamed/part_000`): six POST endpoints that
  read their fields from `req.body.arguments || req.body`, build Mapbox REST
  URLs and reshape the upstream JSON responses;
* the chat bridge (`src/http-bridge/src/index.js`): the `/api/chat` handler,
  its tool-calling loop and `handleToolCalls`.

Modelling conventions:

* Outbound HTTP is modelled by oracle parameters (`fetch : String → …` maps a
  requested URL to the parsed upstream response body; for the bridge,
  `modelApi` maps the messages array sent to the model API to the model
  response, and `call` maps a tool name and input to the gateway's answer).
  Each handler additionally returns the list of URLs it requested, in order,
  so that "exactly n outbound calls" is a statement about the embedding.
* JS numbers that are only ever interpolated into strings (coordinates of
  markers, zoom, width, height, the geocoding limit) are modelled as their
  rendered strings.  `get_route_map` does real arithmetic on its coordinates
  (min/max/padding), so there coordinates are rationals and the handler takes
  a rendering function `render : ℚ → String` standing for JS number-to-string
  conversion inside template literals and `Array.prototype.join`.
* `URLSearchParams` serialisation is modelled as `k=v` pairs joined by `&`
  in insertion order; percent-encoding of values is elided (it is the
  identity on every value the handlers put there, the access token being an
  opaque parameter).  `encodeURIComponent` is an abstract parameter `enc`.
* JS truthiness is modelled explicitly: destructuring defaults fire only on
  `undefined` (`Option.getD`), while `x || d` and `if (x)` also treat the
  empty string as falsy (`jsOrStr`, explicit `if … = ""` tests).
* Exceptions caught by an endpoint's `catch` block are modelled by `JsError`,
  carrying the local `error.message` and the optional
  `error.response?.data?.message` of an axios failure.
-/

/-- JS `x || d` for an optional string: both `undefined` and `""` are falsy. -/
def jsOrStr (v : Option String) (d : String) : String :=
  match v with
  | some s => if s = "" then d else s
  | none => d

/-- JS `Array.prototype.join(sep)`. -/
def joinSep (sep : String) : List String → String
  | [] => ""
  | [x] => x
  | x :: y :: ys => x ++ sep ++ joinSep sep (y :: ys)

/-- Rendering of `URLSearchParams`: `k=v` pairs joined by `&`, insertion order. -/
def paramString (ps : List (String × String)) : String :=
  joinSep "&" (ps.map (fun p => p.1 ++ "=" ++ p.2))

/-- The path segment `coordinates.map(coord => coord.join(',')).join(';')`. -/
def coordinateString (coords : List (List String)) : String :=
  joinSep ";" (coords.map (fun c => joinSep "," c))

/-- A gateway request body: the handlers read their fields from
`req.body.arguments || req.body`, so a body is an optional nested `arguments`
object over a top-level field record of the same shape. -/
structure ReqBody (α : Type) where
  arguments : Option α
  top : α

/-- The field source `req.body.arguments || req.body`. -/
def ReqBody.fields {α : Type} (b : ReqBody α) : α :=
  b.arguments.getD b.top

/-- An exception reaching an endpoint's `catch` block: the local
`error.message`, plus `error.response?.data?.message` when the error is an
axios failure whose upstream response body carried a `message` field. -/
structure JsError where
  message : String
  upstreamMessage : Option String
deriving DecidableEq

/-- Body `{success: false, error: …}` of an error response. -/
structure ErrorBody where
  success : Bool
  error : String
deriving DecidableEq

/-- Catch branch of `geocode_forward`, `geocode_reverse`, `get_directions` and
`get_matrix` (part_000 lines 327-333, 368-374, 419-425, 600-606):
`res.status(500).json({success: false, error: error.response?.data?.message || error.message})`. -/
def catchWithUpstream (e : JsError) : Nat × ErrorBody :=
  (500, { success := false, error := jsOrStr e.upstreamMessage e.message })

/-- Catch branch of `get_static_image` and `get_route_map` (part_000 lines
475-481, 552-558): `res.status(500).json({success: false, error: error.message})`.
These two handlers make no outbound call, so no reachable error carries an
upstream response. -/
def catchLocalMessage (e : JsError) : Nat × ErrorBody :=
  (500, { success := false, error := e.message })

/-! ### Geocoding endpoints (part_000 lines 295-375) -/

/-- An upstream geocoding feature; fields the handler copies, plus an opaque
remainder standing for any further upstream fields (dropped by the mapping). -/
structure Feature where
  place_name : String
  center : String
  place_type : String
  relevance : String
  properties : String
  context : String
  extra : String
deriving DecidableEq

/-- One element of the `results` array: the six copied fields. -/
structure FeatureOut where
  place_name : String
  center : String
  place_type : String
  relevance : String
  properties : String
  context : String
deriving DecidableEq

/-- The feature mapping of both geocoding handlers. -/
def featureOut (f : Feature) : FeatureOut :=
  { place_name := f.place_name, center := f.center, place_type := f.place_type,
    relevance := f.relevance, properties := f.properties, context := f.context }

/-- Parsed body of a geocoding upstream response (`response.data`). -/
structure GeoData where
  features : List Feature
deriving DecidableEq

/-- Body `{success: true, results, total}` of a geocoding response. -/
structure GeoResult where
  success : Bool
  results : List FeatureOut
  total : Nat
deriving DecidableEq

/-- Fields of a `/geocode_forward` body; `limit` is the rendered
`limit.toString()` value, defaulting to `5`. -/
structure GeocodeForwardFields where
  query : String
  limit : Option String
  country : Option String

/-- Handler of `POST /geocode_forward` (part_000 lines 295-334), success path.
Returns the requested URL and the response body. -/
def geocode_forward (token : String) (enc : String → String)
    (fetch : String → GeoData) (b : ReqBody GeocodeForwardFields) :
    String × GeoResult :=
  let f := b.fields
  let ps := [("access_token", token), ("limit", f.limit.getD "5")]
  let ps := match f.country with
    | some c => if c = "" then ps else ps ++ [("country", c)]
    | none => ps
  let url := "https://api.mapbox.com/geocoding/v5/mapbox.places/" ++ enc f.query
    ++ ".json" ++ "?" ++ paramString ps
  let results := (fetch url).features.map featureOut
  (url, { success := true, results := results, total := results.length })

/-- Fields of a `/geocode_reverse` body; longitude/latitude are the rendered
numbers (only ever interpolated). -/
structure GeocodeReverseFields where
  longitude : String
  latitude : String
  types : Option (List String)

/-- Handler of `POST /geocode_reverse` (part_000 lines 337-375), success path. -/
def geocode_reverse (token : String) (fetch : String → GeoData)
    (b : ReqBody GeocodeReverseFields) : String × GeoResult :=
  let f := b.fields
  let ps := [("access_token", token)]
  let ps := match f.types with
    | some ts => if ts.length > 0 then ps ++ [("types", joinSep "," ts)] else ps
    | none => ps
  let url := "https://api.mapbox.com/geocoding/v5/mapbox.places/" ++ f.longitude
    ++ "," ++ f.latitude ++ ".json" ++ "?" ++ paramString ps
  let results := (fetch url).features.map featureOut
  (url, { success := true, results := results, total := results.length })

/-! ### Directions endpoint (part_000 lines 378-426) -/

/-- One element of an upstream `routes` array: the `geometry` the handler
reads, plus an opaque remainder (routes are otherwise copied verbatim). -/
structure Route where
  geometry : String
  remainder : String
deriving DecidableEq

/-- Parsed body of a directions upstream response (`response.data`).
A missing `routes` field is modelled as `[]` (JS: `routes && routes[0]` is
false both for `undefined` and for an empty array). -/
structure DirectionsData where
  routes : List Route
  waypoints : String
  code : String
deriving DecidableEq

/-- Fields of a `/get_directions` body (coordinate entries are rendered
numbers, only ever joined into the path segment). -/
structure DirectionsFields where
  coordinates : List (List String)
  profile : Option String
  geometries : Option String
  steps : Option Bool
  overview : Option String

/-- Success body of `/get_directions`; `polyline` is `none` when the field is
not added. -/
structure DirectionsResult where
  success : Bool
  routes : List Route
  waypoints : String
  code : String
  polyline : Option String
deriving DecidableEq

/-- JS stringification of a boolean. -/
def boolString (b : Bool) : String := if b then "true" else "false"

/-- Handler of `POST /get_directions` (part_000 lines 378-426), success path.
Returns the two requested URLs, in order (the source issues them together via
`Promise.all`), and the merged response body.  `geometries` is destructured
but never used, exactly as in the source. -/
def get_directions (token : String) (fetch : String → DirectionsData)
    (b : ReqBody DirectionsFields) : List String × DirectionsResult :=
  let f := b.fields
  let profile := f.profile.getD "driving"
  let steps := f.steps.getD true
  let overview := f.overview.getD "full"
  let coordStr := coordinateString f.coordinates
  let geojsonUrl := "https://api.mapbox.com/directions/v5/mapbox/" ++ profile
    ++ "/" ++ coordStr ++ "?" ++ paramString
      [("access_token", token), ("geometries", "geojson"),
       ("steps", boolString steps), ("overview", overview)]
  let polylineUrl := "https://api.mapbox.com/directions/v5/mapbox/" ++ profile
    ++ "/" ++ coordStr ++ "?" ++ paramString
      [("access_token", token), ("geometries", "polyline"),
       ("steps", "false"), ("overview", "full")]
  let g := fetch geojsonUrl
  let p := fetch polylineUrl
  ([geojsonUrl, polylineUrl],
    { success := true
      routes := g.routes
      waypoints := g.waypoints
      code := g.code
      polyline := p.routes.head?.map Route.geometry })

/-- The `enum` of the `geometries` property of the `get_directions` tool's
input schema (part_000 lines 106-111). -/
def get_directions_geometries_enum : List String :=
  ["geojson", "polyline", "polyline6"]

/-! ### Static image endpoint (part_000 lines 429-482) -/

/-- A marker object; longitude/latitude are rendered numbers. -/
structure Marker where
  longitude : String
  latitude : String
  size : Option String
  color : Option String
  label : Option String
deriving DecidableEq

/-- Marker encoding of `/get_static_image` (part_000 lines 445-449):
`pin-${size || 'small'}`, `-${label}` only when `label` is truthy, then
`+${color || 'red'}(${longitude},${latitude})`. -/
def markerToken (m : Marker) : String :=
  let s := "pin-" ++ jsOrStr m.size "small"
  let s := match m.label with
    | some l => if l = "" then s else s ++ "-" ++ l
    | none => s
  s ++ "+" ++ jsOrStr m.color "red" ++ "(" ++ m.longitude ++ "," ++ m.latitude ++ ")"

/-- Fields of a `/get_static_image` body; width/height/zoom are rendered
numbers, `markers` defaults to `[]`. -/
structure StaticImageFields where
  style : Option String
  width : Option String
  height : Option String
  zoom : Option String
  center : Option (List String)
  bbox : Option (List String)
  markers : Option (List Marker)

/-- Success body of `/get_static_image`. -/
structure StaticImageResult where
  success : Bool
  image_url : String
  width : String
  height : String
deriving DecidableEq

/-- Handler of `POST /get_static_image` (part_000 lines 429-482), success path.  No
outbound call is made; the handler only builds the image URL. -/
def get_static_image (token : String) (b : ReqBody StaticImageFields) :
    StaticImageResult :=
  let f := b.fields
  let style := f.style.getD "mapbox/streets-v12"
  let width := f.width.getD "600"
  let height := f.height.getD "400"
  let markers := f.markers.getD []
  let url := "https://api.mapbox.com/styles/v1/" ++ style ++ "/static"
  let url := if markers.length > 0
    then url ++ "/" ++ joinSep "," (markers.map markerToken) else url
  let url := match f.bbox with
    | some bb => url ++ "/[" ++ joinSep "," bb ++ "]"
    | none =>
      match f.center, f.zoom with
      | some c, some z => url ++ "/" ++ joinSep "," c ++ "," ++ z
      | _, _ => url
  let url := url ++ "/" ++ width ++ "x" ++ height
  let url := url ++ "?" ++ paramString [("access_token", token)]
  { success := true, image_url := url, width := width, height := height }

/-! ### Route map endpoint (part_000 lines 485-559) -/

/-- Fields of a `/get_route_map` body; the handler does arithmetic on the
coordinates, so they are rational (longitude, latitude) pairs. -/
structure RouteMapFields where
  coordinates : List (ℚ × ℚ)
  style : Option String
  width : Option String
  height : Option String
  route_polyline : Option String

/-- Success body of `/get_route_map`. -/
structure RouteMapResult where
  success : Bool
  image_url : String
  width : String
  height : String
  start_coordinates : ℚ × ℚ
  end_coordinates : ℚ × ℚ
  bounding_box : List ℚ
deriving DecidableEq

/-- Evaluation of `Math.min(...l)` for the non-empty spreads of this handler.  (`Math.min()`
of no arguments is `Infinity`; on `[]` the handler has already thrown while
indexing `coordinates[0]`, so the `0` default is unreachable.) -/
def jsMathMin : List ℚ → ℚ
  | [] => 0
  | x :: xs => xs.foldl min x

/-- Evaluation of `Math.max(...l)`, same conventions as `jsMathMin`. -/
def jsMathMax : List ℚ → ℚ
  | [] => 0
  | x :: xs => xs.foldl max x

/-- Handler of `POST /get_route_map` (part_000 lines 485-559), success path.  `render`
stands for JS number-to-string conversion (template literals and
`Array.prototype.join`), `enc` for `encodeURIComponent`.  On an empty
coordinates list the source throws while indexing (`(0, 0)` placeholders here
are unreachable under the claims' non-emptiness hypotheses). -/
def get_route_map (token : String) (render : ℚ → String) (enc : String → String)
    (b : ReqBody RouteMapFields) : RouteMapResult :=
  let f := b.fields
  let style := f.style.getD "mapbox/streets-v12"
  let width := f.width.getD "800"
  let height := f.height.getD "600"
  let url := "https://api.mapbox.com/styles/v1/" ++ style ++ "/static"
  let startCoord := f.coordinates.headD (0, 0)
  let endCoord := f.coordinates.getLastD (0, 0)
  let markers :=
    ["pin-s-a+00ff00(" ++ render startCoord.1 ++ "," ++ render startCoord.2 ++ ")",
     "pin-s-b+ff0000(" ++ render endCoord.1 ++ "," ++ render endCoord.2 ++ ")"]
  let url := match f.route_polyline with
    | some p =>
      if p = "" then url ++ "/" ++ joinSep "," markers
      else url ++ "/" ++ ("path-5+0080ff-0.75(" ++ enc p ++ ")") ++ ","
        ++ joinSep "," markers
    | none => url ++ "/" ++ joinSep "," markers
  let lons := f.coordinates.map Prod.fst
  let lats := f.coordinates.map Prod.snd
  let minLon := jsMathMin lons
  let maxLon := jsMathMax lons
  let minLat := jsMathMin lats
  let maxLat := jsMathMax lats
  let lonPadding := (maxLon - minLon) * 0.1
  let latPadding := (maxLat - minLat) * 0.1
  let bbox := [minLon - lonPadding, minLat - latPadding,
               maxLon + lonPadding, maxLat + latPadding]
  let url := url ++ "/[" ++ joinSep "," (bbox.map render) ++ "]"
  let url := url ++ "/" ++ width ++ "x" ++ height
  let url := url ++ "?" ++ paramString [("access_token", token)]
  { success := true, image_url := url, width := width, height := height,
    start_coordinates := startCoord, end_coordinates := endCoord,
    bounding_box := bbox }

/-! ### Matrix endpoint (part_000 lines 562-607) -/

/-- Fields of a `/get_matrix` body; `annots` is the source's `annotations`
field, indices rendered as strings. -/
structure MatrixFields where
  coordinates : List (List String)
  profile : Option String
  sources : Option (List String)
  destinations : Option (List String)
  annots : Option (List String)

/-- Parsed body of a matrix upstream response; copied fields are opaque. -/
structure MatrixData where
  durations : String
  distances : String
  sources : String
  destinations : String
  code : String
deriving DecidableEq

/-- Success body of `/get_matrix`. -/
structure MatrixResult where
  success : Bool
  durations : String
  distances : String
  sources : String
  destinations : String
  code : String
deriving DecidableEq

/-- Handler of `POST /get_matrix` (part_000 lines 562-607), success path. -/
def get_matrix (token : String) (fetch : String → MatrixData)
    (b : ReqBody MatrixFields) : String × MatrixResult :=
  let f := b.fields
  let ps := [("access_token", token),
             ("annotations", joinSep "," (f.annots.getD ["duration", "distance"]))]
  let ps := match f.sources with
    | some s => ps ++ [("sources", joinSep ";" s)]
    | none => ps
  let ps := match f.destinations with
    | some d => ps ++ [("destinations", joinSep ";" d)]
    | none => ps
  let url := "https://api.mapbox.com/directions-matrix/v1/mapbox/"
    ++ f.profile.getD "driving" ++ "/" ++ coordinateString f.coordinates
    ++ "?" ++ paramString ps
  let d := fetch url
  (url, { success := true, durations := d.durations, distances := d.distances,
          sources := d.sources, destinations := d.destinations, code := d.code })

/-! ### Chat bridge (`src/http-bridge/src/index.js`) -/

/-- A content block of a model response: `text` or `tool_use` (id, name,
input — the input JSON is opaque here, forwarded verbatim). -/
inductive ContentBlock
  | text : String → ContentBlock
  | toolUse : String → String → String → ContentBlock
deriving DecidableEq

/-- The test `block.type === 'tool_use'`. -/
def ContentBlock.isToolUse : ContentBlock → Bool
  | .toolUse _ _ _ => true
  | _ => false

/-- The test `content.some(block => block.type === 'tool_use')`. -/
def hasToolUse (bs : List ContentBlock) : Bool :=
  bs.any ContentBlock.isToolUse

/-- A `tool_result` block; `is_error := false` models the absent flag of a
successful result. -/
structure ToolResult where
  tool_use_id : String
  content : String
  is_error : Bool
deriving DecidableEq

/-- One POST issued by `handleToolCalls` to the gateway:
`axios.post(MCP_SERVER_URL + '/' + block.name, {arguments: block.input})`.
`argumentsBody` is the value the body wraps under `arguments`. -/
structure BridgePost where
  endpoint : String
  argumentsBody : String
deriving DecidableEq

/-- The function `handleToolCalls` (index.js lines 231-269).  `call name input` is the
gateway oracle; `.ok d` carries the already-stringified response data
(`JSON.stringify(mcpResponse.data)`), `.error m` the axios `error.message`.
Returns the issued POSTs, in order, and the accumulated tool results. -/
def handleToolCalls (call : String → String → Except String String) :
    List ContentBlock → List BridgePost × List ToolResult
  | [] => ([], [])
  | b :: rest =>
    match b with
    | .text _ => handleToolCalls call rest
    | .toolUse bid nm inp =>
      let r : ToolResult := match call nm inp with
        | .ok d => { tool_use_id := bid, content := d, is_error := false }
        | .error m =>
          { tool_use_id := bid,
            content := "Error calling tool " ++ nm ++ ": " ++ m,
            is_error := true }
      let pr := handleToolCalls call rest
      ({ endpoint := nm, argumentsBody := inp } :: pr.1, r :: pr.2)

/-- The content of a chat message: the plain user string, an assistant block
list, or a user-role tool-results list. -/
inductive MsgContent
  | ofString : String → MsgContent
  | ofBlocks : List ContentBlock → MsgContent
  | ofResults : List ToolResult → MsgContent
deriving DecidableEq

/-- A chat message. -/
structure Msg where
  role : String
  content : MsgContent
deriving DecidableEq

/-- Message `{role: 'user', content: message}`. -/
def userMsg (s : String) : Msg := { role := "user", content := .ofString s }

/-- Message `{role: 'assistant', content: blocks}`. -/
def assistantMsg (bs : List ContentBlock) : Msg :=
  { role := "assistant", content := .ofBlocks bs }

/-- Message `{role: 'user', content: toolResults}`. -/
def toolResultsMsg (rs : List ToolResult) : Msg :=
  { role := "user", content := .ofResults rs }

/-- A model API response; only the `content` blocks matter to the claims. -/
structure ModelResponse where
  content : List ContentBlock
deriving DecidableEq

/-- The `while (…some(tool_use))` loop of `/api/chat` (index.js lines
156-203).  `modelApi` maps the messages array of a model API request to the
response (every other payload field is constant in the source).  `fuel`
bounds the otherwise unbounded loop; `none` models non-termination.  `log`
accumulates the messages array of every model API request issued so far. -/
def chatLoop (modelApi : List Msg → ModelResponse)
    (call : String → String → Except String String) :
    Nat → List Msg → ModelResponse → List (List Msg) →
    Option (ModelResponse × List (List Msg))
  | 0, _, resp, log =>
    if hasToolUse resp.content then none else some (resp, log)
  | fuel + 1, msgs, resp, log =>
    if hasToolUse resp.content then
      let results := (handleToolCalls call resp.content).2
      let msgs2 := msgs ++ [assistantMsg resp.content, toolResultsMsg results]
      chatLoop modelApi call fuel msgs2 (modelApi msgs2) (log ++ [msgs2])
    else some (resp, log)

/-- What `/api/chat` sends back on success (index.js lines 205-215);
`modelCallPayloads` instruments the embedding with the messages array of each
model API call made, in order. -/
structure ChatResult where
  response : List ContentBlock
  conversationHistory : List Msg
  modelCallPayloads : List (List Msg)
deriving DecidableEq

/-- Outcome of `/api/chat`: 400 for a missing message, 200 with a
`ChatResult`, or non-termination of the tool loop (fuel exhausted). -/
inductive ChatOutcome
  | badRequest : ChatOutcome
  | ok : ChatResult → ChatOutcome
  | outOfFuel : ChatOutcome
deriving DecidableEq

/-- Handler of `POST /api/chat` (index.js lines 96-228).  The guard
`if (!message || typeof message !== 'string')` returns 400; non-string bodies
are outside this model and the empty string is the falsy string.  The
response's `conversationHistory` is built from the request's history (lines
209-213), not from the loop's `currentMessages`. -/
def apiChat (modelApi : List Msg → ModelResponse)
    (call : String → String → Except String String) (fuel : Nat)
    (message : String) (conversationHistory : List Msg) : ChatOutcome :=
  if message = "" then .badRequest
  else
    let messages := conversationHistory ++ [userMsg message]
    match chatLoop modelApi call fuel messages (modelApi messages) [messages] with
    | none => .outOfFuel
    | some (finalResponse, log) =>
      .ok { response := finalResponse.content
            conversationHistory := conversationHistory ++
              [userMsg message, assistantMsg finalResponse.content]
            modelCallPayloads := log }

/-! ### Sample data used by witnesses -/

/-- A sample directions upstream response. -/
def sampleDirectionsData : DirectionsData :=
  { routes := [{ geometry := "geomA", remainder := "restA" }],
    waypoints := "wps", code := "Ok" }

/-- A sample directions fetch oracle. -/
def sampleDirectionsFetch : String → DirectionsData :=
  fun _ => sampleDirectionsData

/-- A sample `/get_directions` body (top-level fields, all optionals absent). -/
def sampleDirectionsBody : ReqBody DirectionsFields :=
  { arguments := none,
    top := { coordinates := [["-74", "40"], ["-73", "41"]], profile := none,
             geometries := none, steps := none, overview := none } }

/-- A sample `/get_static_image` body carrying a bbox. -/
def sampleStaticImageBody : ReqBody StaticImageFields :=
  { arguments := none,
    top := { style := none, width := none, height := none, zoom := none,
             center := none, bbox := some ["9", "47", "10", "48"],
             markers := none } }

/-- The marker of the spec's concrete `/get_static_image` example. -/
def sampleMarker : Marker :=
  { longitude := "-73.985", latitude := "40.758", size := some "small",
    color := some "red", label := none }

/-- A marker supplying the empty string as its size. -/
def emptySizeMarker : Marker :=
  { longitude := "-73.985", latitude := "40.758", size := some "",
    color := some "red", label := none }

/-- A sample `/get_route_map` body over the spec's concrete coordinates. -/
def sampleRouteMapBody : ReqBody RouteMapFields :=
  { arguments := none,
    top := { coordinates := [(-74, 40), (-73, 41)], style := none,
             width := none, height := none, route_polyline := none } }

/-- A sample rational renderer (witnesses only need some function). -/
def sampleRender : ℚ → String := fun _ => "q"

/-- A sample `encodeURIComponent` stand-in. -/
def sampleEnc : String → String := fun s => s

/-- A model oracle that always answers with a plain text block. -/
def sampleModelNoTools : List Msg → ModelResponse :=
  fun _ => { content := [.text "hello"] }

/-- A gateway oracle whose calls always succeed. -/
def sampleCallOk : String → String → Except String String :=
  fun _ _ => .ok "data"

/-- A gateway oracle whose calls always fail. -/
def sampleCallFail : String → String → Except String String :=
  fun _ _ => .error "boom"

/-- A model response consisting of a single tool-use block. -/
def sampleToolUseResponse : ModelResponse :=
  { content := [.toolUse "id1" "get_directions" "input1"] }

/-- A sample error with an upstream message. -/
def sampleErrorUpstream : JsError :=
  { message := "Request failed with status code 422", upstreamMessage := some "Not Authorized" }

/-- A sample error without an upstream message. -/
def sampleErrorLocal : JsError :=
  { message := "boom", upstreamMessage := none }

/-- An error whose upstream response carries an empty `message` field. -/
def emptyUpstreamError : JsError :=
  { message := "Request failed with status code 422", upstreamMessage := some "" }

/-- The error message as the claim words it: the `message` field of the
upstream error response when present, the local exception message
otherwise. -/
def errorMessageSpec (e : JsError) : String :=
  e.upstreamMessage.getD e.message

/-- Marker encoding as the specification words it: `pin-{size}[-{label}]+{color}({lon},{lat})`
with size/color defaulting only when the field is omitted and the label
segment present exactly when a label is supplied. -/
def markerTokenSpec (m : Marker) : String :=
  "pin-" ++ m.size.getD "small"
    ++ (match m.label with
        | some l => "-" ++ l
        | none => "")
    ++ "+" ++ m.color.getD "red" ++ "(" ++ m.longitude ++ "," ++ m.latitude ++ ")"

/-- The part of a `/get_static_image` URL before the viewport segment:
style base plus the optional marker segment. -/
def staticUrlStem (b : ReqBody StaticImageFields) : String :=
  let f := b.fields
  let base := "https://api.mapbox.com/styles/v1/"
    ++ f.style.getD "mapbox/streets-v12" ++ "/static"
  if (f.markers.getD []).length > 0
  then base ++ "/" ++ joinSep "," ((f.markers.getD []).map markerToken)
  else base

/-- The primary `/get_directions` URL as the claim words it: the request's
profile, steps and overview values (defaults driving/true/full) with
`geometries=geojson`. -/
def primaryDirectionsUrl (token : String) (f : DirectionsFields) : String :=
  "https://api.mapbox.com/directions/v5/mapbox/" ++ f.profile.getD "driving"
    ++ "/" ++ coordinateString f.coordinates
    ++ "?access_token=" ++ token
    ++ "&geometries=geojson&steps=" ++ boolString (f.steps.getD true)
    ++ "&overview=" ++ f.overview.getD "full"

/-- The secondary `/get_directions` URL as the claim words it: same profile
and coordinate string, but `geometries=polyline`, `steps=false`,
`overview=full`. -/
def secondaryDirectionsUrl (token : String) (f : DirectionsFields) : String :=
  "https://api.mapbox.com/directions/v5/mapbox/" ++ f.profile.getD "driving"
    ++ "/" ++ coordinateString f.coordinates
    ++ "?access_token=" ++ token
    ++ "&geometries=polyline&steps=false&overview=full"

/-- The part of a `/get_static_image` URL after the viewport segment:
`{width}x{height}` and the query string. -/
def staticSuffix (token : String) (b : ReqBody StaticImageFields) : String :=
  "/" ++ (ReqBody.fields b).width.getD "600" ++ "x"
    ++ (ReqBody.fields b).height.getD "400" ++ "?access_token=" ++ token

/-! ### Helper lemmas -/

/-- Merge two adjacent append operands. -/
theorem strMerge (a b c x : String) (h : a ++ b = c) : a ++ (b ++ x) = c ++ x := by
  rw [← String.append_assoc, h]

/-- Merge two adjacent append operands inside a left-associated chain. -/
theorem strMergeL (x a b c : String) (h : a ++ b = c) : x ++ a ++ b = x ++ c := by
  rw [String.append_assoc, h]

theorem foldl_min_le_init (xs : List ℚ) (a : ℚ) : xs.foldl min a ≤ a := by
  induction xs generalizing a with
  | nil => simp
  | cons x xs ih => exact le_trans (ih (min a x)) (min_le_left a x)

theorem foldl_min_le_mem (xs : List ℚ) (a b : ℚ) (hb : b ∈ xs) :
    xs.foldl min a ≤ b := by
  induction xs generalizing a with
  | nil => cases hb
  | cons x xs ih =>
    rcases List.mem_cons.mp hb with h | h
    · subst h
      exact le_trans (foldl_min_le_init xs (min a b)) (min_le_right a b)
    · exact ih (min a x) h

theorem foldl_min_mem (xs : List ℚ) (a : ℚ) :
    xs.foldl min a = a ∨ xs.foldl min a ∈ xs := by
  induction xs generalizing a with
  | nil => left; rfl
  | cons x xs ih =>
    rcases ih (min a x) with h | h
    · rcases min_choice a x with hm | hm
      · left
        show xs.foldl min (min a x) = a
        rw [h, hm]
      · right
        refine List.mem_cons.mpr (Or.inl ?_)
        show xs.foldl min (min a x) = x
        rw [h, hm]
    · right
      exact List.mem_cons_of_mem x h

theorem init_le_foldl_max (xs : List ℚ) (a : ℚ) : a ≤ xs.foldl max a := by
  induction xs generalizing a with
  | nil => simp
  | cons x xs ih => exact le_trans (le_max_left a x) (ih (max a x))

theorem mem_le_foldl_max (xs : List ℚ) (a b : ℚ) (hb : b ∈ xs) :
    b ≤ xs.foldl max a := by
  induction xs generalizing a with
  | nil => cases hb
  | cons x xs ih =>
    rcases List.mem_cons.mp hb with h | h
    · subst h
      exact le_trans (le_max_right a b) (init_le_foldl_max xs (max a b))
    · exact ih (max a x) h

theorem foldl_max_mem (xs : List ℚ) (a : ℚ) :
    xs.foldl max a = a ∨ xs.foldl max a ∈ xs := by
  induction xs generalizing a with
  | nil => left; rfl
  | cons x xs ih =>
    rcases ih (max a x) with h | h
    · rcases max_choice a x with hm | hm
      · left
        show xs.foldl max (max a x) = a
        rw [h, hm]
      · right
        refine List.mem_cons.mpr (Or.inl ?_)
        show xs.foldl max (max a x) = x
        rw [h, hm]
    · right
      exact List.mem_cons_of_mem x h

/-- Evaluation of `Math.min` over a non-empty spread yields the minimum. -/
theorem jsMathMin_eq (x : ℚ) (xs : List ℚ) (m : ℚ) (hmem : m ∈ x :: xs)
    (hlb : ∀ a ∈ x :: xs, m ≤ a) : jsMathMin (x :: xs) = m := by
  apply le_antisymm
  · rcases List.mem_cons.mp hmem with h | h
    · subst h
      exact foldl_min_le_init xs m
    · exact foldl_min_le_mem xs x m h
  · rcases foldl_min_mem xs x with h | h
    · show m ≤ xs.foldl min x
      rw [h]
      exact hlb x (List.mem_cons_self x xs)
    · exact hlb _ (List.mem_cons_of_mem x h)

/-- Evaluation of `Math.max` over a non-empty spread yields the maximum. -/
theorem jsMathMax_eq (x : ℚ) (xs : List ℚ) (m : ℚ) (hmem : m ∈ x :: xs)
    (hub : ∀ a ∈ x :: xs, a ≤ m) : jsMathMax (x :: xs) = m := by
  apply le_antisymm
  · rcases foldl_max_mem xs x with h | h
    · show xs.foldl max x ≤ m
      rw [h]
      exact hub x (List.mem_cons_self x xs)
    · exact hub _ (List.mem_cons_of_mem x h)
  · rcases List.mem_cons.mp hmem with h | h
    · subst h
      exact init_le_foldl_max xs m
    · exact mem_le_foldl_max xs x m h

/-- A URL of the route-map shape has its closing bbox viewport segment
directly before the `{width}x{height}` segment, whatever came before. -/
theorem routeMapViewportStem (x j w h t : String) :
    ∃ pre, x ++ "/[" ++ j ++ "]" ++ "/" ++ w ++ "x" ++ h ++ "?"
        ++ ("access_token" ++ "=" ++ t) =
      pre ++ "/[" ++ j ++ "]" ++ "/" ++ w ++ "x" ++ h ++ "?access_token=" ++ t := by
  refine ⟨x, ?_⟩
  simp only [← String.append_assoc]
  rw [strMergeL _ "?" "access_token" "?access_token" rfl,
    strMergeL _ "?access_token" "=" "?access_token=" rfl]

/-! ### Claim theorems -/

/-- Claim C6: every gateway POST endpoint reads its fields from the nested
`body.arguments` object when present (taking precedence over top-level
fields) and from the top-level body otherwise, so a body `{arguments: A}`
behaves exactly like the body `A` alone — for all six endpoints, oracles and
field records. -/
theorem arguments_precedence (token : String) (enc : String → String)
    (gfetch : String → GeoData) (dfetch : String → DirectionsData)
    (mfetch : String → MatrixData) (render : ℚ → String)
    (gfA gfB : GeocodeForwardFields) (grA grB : GeocodeReverseFields)
    (dA dB : DirectionsFields) (siA siB : StaticImageFields)
    (rmA rmB : RouteMapFields) (mA mB : MatrixFields) :
    geocode_forward token enc gfetch ⟨some gfA, gfB⟩ =
      geocode_forward token enc gfetch ⟨none, gfA⟩ ∧
    geocode_reverse token gfetch ⟨some grA, grB⟩ =
      geocode_reverse token gfetch ⟨none, grA⟩ ∧
    get_directions token dfetch ⟨some dA, dB⟩ =
      get_directions token dfetch ⟨none, dA⟩ ∧
    get_static_image token ⟨some siA, siB⟩ =
      get_static_image token ⟨none, siA⟩ ∧
    get_route_map token render enc ⟨some rmA, rmB⟩ =
      get_route_map token render enc ⟨none, rmA⟩ ∧
    get_matrix token mfetch ⟨some mA, mB⟩ =
      get_matrix token mfetch ⟨none, mA⟩ :=
  ⟨rfl, rfl, rfl, rfl, rfl, rfl⟩

/-- Counterexample to C7 as stated: for an error whose upstream response
carries an empty `message` field — upstream message present — the code
(`error.response?.data?.message || error.message`) falls back to the local
exception message, while the claim's rule (upstream message whenever
present, via `errorMessageSpec`) would return the empty upstream message. -/
theorem gateway_error_responses_counterexample :
    emptyUpstreamError.upstreamMessage = some "" ∧
    (catchWithUpstream emptyUpstreamError).2.error =
      "Request failed with status code 422" ∧
    errorMessageSpec emptyUpstreamError = "" ∧
    (catchWithUpstream emptyUpstreamError).2.error ≠
      errorMessageSpec emptyUpstreamError := by
  refine ⟨rfl, by decide, by decide, by decide⟩

/-- Claim C7 (amended): every gateway endpoint's catch branch answers
HTTP 500 with `{success:false, error:<message>}`, the message being the
upstream provider's error message when one is present and non-empty — JS
`||` treats an empty upstream message as absent and falls back — and the
local exception message otherwise; `success:true` never appears in an error
response.  The two endpoints that make no outbound call always use the local
exception message, which agrees with the rule since no reachable error there
carries an upstream response. -/
theorem gateway_error_responses (e : JsError) (m : String) :
    (catchWithUpstream e).1 = 500 ∧
    (catchWithUpstream e).2.success = false ∧
    (catchLocalMessage e).1 = 500 ∧
    (catchLocalMessage e).2.success = false ∧
    (e.upstreamMessage = some m → m ≠ "" → (catchWithUpstream e).2.error = m) ∧
    (e.upstreamMessage = some "" → (catchWithUpstream e).2.error = e.message) ∧
    (e.upstreamMessage = none → (catchWithUpstream e).2.error = e.message) ∧
    (catchLocalMessage e).2.error = e.message ∧
    (e.upstreamMessage = none → catchLocalMessage e = catchWithUpstream e) := by
  refine ⟨rfl, rfl, rfl, rfl, ?_, ?_, ?_, rfl, ?_⟩
  · intro hm hne
    simp [catchWithUpstream, jsOrStr, hm, hne]
  · intro hm
    simp [catchWithUpstream, jsOrStr, hm]
  · intro hm
    simp [catchWithUpstream, jsOrStr, hm]
  · intro hm
    simp [catchWithUpstream, catchLocalMessage, jsOrStr, hm]

/-- Witness for C7 at a concrete error carrying a non-empty upstream
message. -/
theorem gateway_error_responses_witness :
    sampleErrorUpstream.upstreamMessage = some "Not Authorized" ∧
    (catchWithUpstream sampleErrorUpstream).2.error = "Not Authorized" :=
  ⟨rfl, (gateway_error_responses sampleErrorUpstream "Not Authorized").2.2.2.2.1
    rfl (by decide)⟩

/-- Claim C10: `/get_directions` ignores the `geometries` field entirely —
two bodies differing only in `geometries` (whether nested under `arguments`
or top-level) produce identical outbound URLs and responses, although the
tool schema advertises `geometries` with enum geojson/polyline/polyline6. -/
theorem geometries_ignored (token : String) (fetch : String → DirectionsData)
    (a t : DirectionsFields) (g : Option String) :
    get_directions token fetch ⟨some { a with geometries := g }, t⟩ =
      get_directions token fetch ⟨some a, t⟩ ∧
    get_directions token fetch ⟨none, { t with geometries := g }⟩ =
      get_directions token fetch ⟨none, t⟩ ∧
    get_directions_geometries_enum = ["geojson", "polyline", "polyline6"] :=
  ⟨rfl, rfl, rfl⟩

/-- Claim C1: for every `/get_directions` request with a non-empty
coordinates list the handler issues exactly the two outbound GETs
`primaryDirectionsUrl` (request's profile/steps/overview, defaults
driving/true/full, `geometries=geojson`) and `secondaryDirectionsUrl`
(same profile and coordinate string, `geometries=polyline`, `steps=false`,
`overview=full`), joined in parallel; on success it answers `success:true`
with `routes`, `waypoints` and `code` copied verbatim from the primary
response, plus `polyline` equal to the geometry of the secondary response's
first route when one exists and no `polyline` field otherwise. -/
theorem get_directions_contract (token : String)
    (fetch : String → DirectionsData) (b : ReqBody DirectionsFields)
    (_hne : (ReqBody.fields b).coordinates ≠ []) :
    (get_directions token fetch b).1 =
      [primaryDirectionsUrl token (ReqBody.fields b),
       secondaryDirectionsUrl token (ReqBody.fields b)] ∧
    (get_directions token fetch b).2.success = true ∧
    (get_directions token fetch b).2.routes =
      (fetch (primaryDirectionsUrl token (ReqBody.fields b))).routes ∧
    (get_directions token fetch b).2.waypoints =
      (fetch (primaryDirectionsUrl token (ReqBody.fields b))).waypoints ∧
    (get_directions token fetch b).2.code =
      (fetch (primaryDirectionsUrl token (ReqBody.fields b))).code ∧
    (∀ r rs, (fetch (secondaryDirectionsUrl token (ReqBody.fields b))).routes = r :: rs →
      (get_directions token fetch b).2.polyline = some r.geometry) ∧
    ((fetch (secondaryDirectionsUrl token (ReqBody.fields b))).routes = [] →
      (get_directions token fetch b).2.polyline = none) := by
  have hg : "https://api.mapbox.com/directions/v5/mapbox/"
      ++ (ReqBody.fields b).profile.getD "driving" ++ "/"
      ++ coordinateString (ReqBody.fields b).coordinates ++ "?"
      ++ paramString [("access_token", token), ("geometries", "geojson"),
          ("steps", boolString ((ReqBody.fields b).steps.getD true)),
          ("overview", (ReqBody.fields b).overview.getD "full")] =
      primaryDirectionsUrl token (ReqBody.fields b) := by
    simp only [primaryDirectionsUrl, paramString, joinSep, List.map,
      ← String.append_assoc]
    rw [strMergeL _ "?" "access_token" "?access_token" rfl,
      strMergeL _ "?access_token" "=" "?access_token=" rfl,
      strMergeL _ "&" "geometries" "&geometries" rfl,
      strMergeL _ "&geometries" "=" "&geometries=" rfl,
      strMergeL _ "&geometries=" "geojson" "&geometries=geojson" rfl,
      strMergeL _ "&geometries=geojson" "&" "&geometries=geojson&" rfl,
      strMergeL _ "&geometries=geojson&" "steps" "&geometries=geojson&steps" rfl,
      strMergeL _ "&geometries=geojson&steps" "=" "&geometries=geojson&steps=" rfl,
      strMergeL _ "&" "overview" "&overview" rfl,
      strMergeL _ "&overview" "=" "&overview=" rfl]
  have hp : "https://api.mapbox.com/directions/v5/mapbox/"
      ++ (ReqBody.fields b).profile.getD "driving" ++ "/"
      ++ coordinateString (ReqBody.fields b).coordinates ++ "?"
      ++ paramString [("access_token", token), ("geometries", "polyline"),
          ("steps", "false"), ("overview", "full")] =
      secondaryDirectionsUrl token (ReqBody.fields b) := by
    simp only [secondaryDirectionsUrl, paramString, joinSep, List.map,
      ← String.append_assoc]
    rw [strMergeL _ "?" "access_token" "?access_token" rfl,
      strMergeL _ "?access_token" "=" "?access_token=" rfl,
      strMergeL _ "&" "geometries" "&geometries" rfl,
      strMergeL _ "&geometries" "=" "&geometries=" rfl,
      strMergeL _ "&geometries=" "polyline" "&geometries=polyline" rfl,
      strMergeL _ "&geometries=polyline" "&" "&geometries=polyline&" rfl,
      strMergeL _ "&geometries=polyline&" "steps" "&geometries=polyline&steps" rfl,
      strMergeL _ "&geometries=polyline&steps" "=" "&geometries=polyline&steps=" rfl,
      strMergeL _ "&geometries=polyline&steps=" "false" "&geometries=polyline&steps=false" rfl,
      strMergeL _ "&geometries=polyline&steps=false" "&" "&geometries=polyline&steps=false&" rfl,
      strMergeL _ "&geometries=polyline&steps=false&" "overview" "&geometries=polyline&steps=false&overview" rfl,
      strMergeL _ "&geometries=polyline&steps=false&overview" "=" "&geometries=polyline&steps=false&overview=" rfl,
      strMergeL _ "&geometries=polyline&steps=false&overview=" "full" "&geometries=polyline&steps=false&overview=full" rfl]
  refine ⟨?_, rfl, ?_, ?_, ?_, ?_, ?_⟩
  · simp only [get_directions]
    rw [hg, hp]
  · simp only [get_directions]
    rw [hg]
  · simp only [get_directions]
    rw [hg]
  · simp only [get_directions]
    rw [hg]
  · intro r rs h
    simp only [get_directions]
    rw [hp, h]
    rfl
  · intro h
    simp only [get_directions]
    rw [hp, h]
    rfl

/-- Witness for C1 at a concrete request and fetch oracle. -/
theorem get_directions_contract_witness :
    (ReqBody.fields sampleDirectionsBody).coordinates ≠ [] ∧
    (get_directions "T" sampleDirectionsFetch sampleDirectionsBody).1 =
      [primaryDirectionsUrl "T" (ReqBody.fields sampleDirectionsBody),
       secondaryDirectionsUrl "T" (ReqBody.fields sampleDirectionsBody)] :=
  ⟨by decide,
   (get_directions_contract "T" sampleDirectionsFetch sampleDirectionsBody
     (by decide)).1⟩

/-- Claim C4: in the `/get_static_image` URL, a present `bbox` yields the
viewport segment `[bbox joined by commas]` even when center and zoom are also
supplied; with `bbox` absent, a present center and defined zoom yield
`center joined by commas`, a comma and the zoom; with all three omitted the
viewport segment is skipped and the URL proceeds directly to the
`{width}x{height}` segment. -/
theorem static_image_viewport (token : String) (b : ReqBody StaticImageFields) :
    (∀ bb, (ReqBody.fields b).bbox = some bb →
      (get_static_image token b).image_url =
        staticUrlStem b ++ "/[" ++ joinSep "," bb ++ "]" ++ staticSuffix token b) ∧
    (∀ c z, (ReqBody.fields b).bbox = none → (ReqBody.fields b).center = some c →
      (ReqBody.fields b).zoom = some z →
      (get_static_image token b).image_url =
        staticUrlStem b ++ "/" ++ joinSep "," c ++ "," ++ z ++ staticSuffix token b) ∧
    ((ReqBody.fields b).bbox = none → (ReqBody.fields b).center = none →
      (ReqBody.fields b).zoom = none →
      (get_static_image token b).image_url = staticUrlStem b ++ staticSuffix token b) := by
  refine ⟨?_, ?_, ?_⟩
  · intro bb hbb
    simp only [get_static_image, staticUrlStem, staticSuffix, paramString,
      joinSep, List.map, hbb, ← String.append_assoc]
    rw [strMergeL _ "?" "access_token" "?access_token" rfl,
      strMergeL _ "?access_token" "=" "?access_token=" rfl]
  · intro c z hbb hc hz
    simp only [get_static_image, staticUrlStem, staticSuffix, paramString,
      joinSep, List.map, hbb, hc, hz, ← String.append_assoc]
    rw [strMergeL _ "?" "access_token" "?access_token" rfl,
      strMergeL _ "?access_token" "=" "?access_token=" rfl]
  · intro hbb hc hz
    simp only [get_static_image, staticUrlStem, staticSuffix, paramString,
      joinSep, List.map, hbb, hc, hz, ← String.append_assoc]
    rw [strMergeL _ "?" "access_token" "?access_token" rfl,
      strMergeL _ "?access_token" "=" "?access_token=" rfl]

/-- Witness for C4 at a concrete body carrying a bbox. -/
theorem static_image_viewport_witness :
    (ReqBody.fields sampleStaticImageBody).bbox = some ["9", "47", "10", "48"] ∧
    (get_static_image "T" sampleStaticImageBody).image_url =
      staticUrlStem sampleStaticImageBody ++ "/["
        ++ joinSep "," ["9", "47", "10", "48"] ++ "]"
        ++ staticSuffix "T" sampleStaticImageBody :=
  ⟨rfl, (static_image_viewport "T" sampleStaticImageBody).1
    ["9", "47", "10", "48"] rfl⟩

/-- Counterexample to C5 as stated: for a marker supplying the empty string
as `size`, the code falls back to `small` (JS `||` treats `""` as falsy),
while the claim's template `pin-{size}[-{label}]+{color}(lon,lat)` with
defaults only for omitted fields would emit the empty size verbatim. -/
theorem marker_encoding_counterexample :
    markerToken emptySizeMarker = "pin-small+red(-73.985,40.758)" ∧
    markerTokenSpec emptySizeMarker = "pin-+red(-73.985,40.758)" ∧
    markerToken emptySizeMarker ≠ markerTokenSpec emptySizeMarker := by
  refine ⟨by decide, by decide, by decide⟩

/-- Claim C5 (amended): each marker of `/get_static_image` is encoded as
`pin-{size}[-{label}]+{color}({longitude},{latitude})` with size defaulting
to `small` and color to `red` when omitted — or when supplied as the empty
string, which JS truthiness treats as absent — and the label segment present
only for a non-empty label; the tokens are joined by commas into a single
URL path segment; the spec's concrete marker yields exactly
`pin-small+red(-73.985,40.758)`. -/
theorem marker_encoding (token : String) (m : Marker)
    (b : ReqBody StaticImageFields) (hs : m.size ≠ some "")
    (hcol : m.color ≠ some "") (hlab : m.label ≠ some "") :
    markerToken m = markerTokenSpec m ∧
    (∀ ms, (ReqBody.fields b).markers = some ms → 0 < ms.length →
      staticUrlStem b = "https://api.mapbox.com/styles/v1/"
          ++ (ReqBody.fields b).style.getD "mapbox/streets-v12" ++ "/static"
          ++ "/" ++ joinSep "," (ms.map markerToken) ∧
      ∃ tail, (get_static_image token b).image_url = staticUrlStem b ++ tail) ∧
    (∀ m' : Marker,
      markerToken { m' with size := some "" } =
        markerToken { m' with size := none } ∧
      markerToken { m' with color := some "" } =
        markerToken { m' with color := none } ∧
      markerToken { m' with label := some "" } =
        markerToken { m' with label := none }) ∧
    markerToken sampleMarker = "pin-small+red(-73.985,40.758)" := by
  refine ⟨?_, ?_, ?_, by decide⟩
  · obtain ⟨lon, lat, size, color, label⟩ := m
    rcases size with _ | s <;> rcases color with _ | c <;> rcases label with _ | l <;>
      simp_all [markerToken, markerTokenSpec, jsOrStr, ← String.append_assoc]
  · intro ms hms hlen
    constructor
    · simp only [staticUrlStem, hms, Option.getD]
      rw [if_pos hlen]
    · rcases hbb : (ReqBody.fields b).bbox with _ | bb
      · rcases hc : (ReqBody.fields b).center with _ | c
        · rcases hz : (ReqBody.fields b).zoom with _ | z
          · exact ⟨"/" ++ (ReqBody.fields b).width.getD "600" ++ "x"
              ++ (ReqBody.fields b).height.getD "400" ++ "?"
              ++ paramString [("access_token", token)],
              by simp only [get_static_image, staticUrlStem, hbb, hc, hz,
                ← String.append_assoc]⟩
          · exact ⟨"/" ++ (ReqBody.fields b).width.getD "600" ++ "x"
              ++ (ReqBody.fields b).height.getD "400" ++ "?"
              ++ paramString [("access_token", token)],
              by simp only [get_static_image, staticUrlStem, hbb, hc, hz,
                ← String.append_assoc]⟩
        · rcases hz : (ReqBody.fields b).zoom with _ | z
          · exact ⟨"/" ++ (ReqBody.fields b).width.getD "600" ++ "x"
              ++ (ReqBody.fields b).height.getD "400" ++ "?"
              ++ paramString [("access_token", token)],
              by simp only [get_static_image, staticUrlStem, hbb, hc, hz,
                ← String.append_assoc]⟩
          · exact ⟨"/" ++ joinSep "," c ++ "," ++ z ++ "/"
              ++ (ReqBody.fields b).width.getD "600" ++ "x"
              ++ (ReqBody.fields b).height.getD "400" ++ "?"
              ++ paramString [("access_token", token)],
              by simp only [get_static_image, staticUrlStem, hbb, hc, hz,
                ← String.append_assoc]⟩
      · exact ⟨"/[" ++ joinSep "," bb ++ "]" ++ "/"
          ++ (ReqBody.fields b).width.getD "600" ++ "x"
          ++ (ReqBody.fields b).height.getD "400" ++ "?"
          ++ paramString [("access_token", token)],
          by simp only [get_static_image, staticUrlStem, hbb,
            ← String.append_assoc]⟩
  · intro m'
    refine ⟨?_, ?_, ?_⟩ <;> simp [markerToken, jsOrStr]

/-- Witness for C5 (amended) at the spec's concrete marker. -/
theorem marker_encoding_witness :
    sampleMarker.size ≠ some "" ∧
    markerToken sampleMarker = markerTokenSpec sampleMarker :=
  ⟨by decide, (marker_encoding "T" sampleMarker sampleStaticImageBody
    (by decide) (by decide) (by decide)).1⟩

/-- Claim C2: for a `/get_route_map` request with a non-empty coordinates
list, the returned `bounding_box` is the coordinate bounding box padded by
10% of each extent on each side, this box is the viewport segment of
`image_url`, and on the spec's concrete coordinates the box before padding
is `[-74,40,-73,41]` and the padded box `[-74.1,39.9,-72.9,41.1]`. -/
theorem route_map_bounding_box (token : String) (render : ℚ → String)
    (enc : String → String) (b : ReqBody RouteMapFields)
    (c : ℚ × ℚ) (cs : List (ℚ × ℚ))
    (hc : (ReqBody.fields b).coordinates = c :: cs)
    (mLon MLon mLat MLat : ℚ)
    (hmLon : mLon ∈ (c :: cs).map Prod.fst ∧ ∀ a ∈ (c :: cs).map Prod.fst, mLon ≤ a)
    (hMLon : MLon ∈ (c :: cs).map Prod.fst ∧ ∀ a ∈ (c :: cs).map Prod.fst, a ≤ MLon)
    (hmLat : mLat ∈ (c :: cs).map Prod.snd ∧ ∀ a ∈ (c :: cs).map Prod.snd, mLat ≤ a)
    (hMLat : MLat ∈ (c :: cs).map Prod.snd ∧ ∀ a ∈ (c :: cs).map Prod.snd, a ≤ MLat) :
    (get_route_map token render enc b).bounding_box =
      [mLon - 0.1 * (MLon - mLon), mLat - 0.1 * (MLat - mLat),
       MLon + 0.1 * (MLon - mLon), MLat + 0.1 * (MLat - mLat)] ∧
    (∃ pre, (get_route_map token render enc b).image_url =
      pre ++ "/["
        ++ joinSep "," ((get_route_map token render enc b).bounding_box.map render)
        ++ "]" ++ "/" ++ (ReqBody.fields b).width.getD "800" ++ "x"
        ++ (ReqBody.fields b).height.getD "600" ++ "?access_token=" ++ token) ∧
    [jsMathMin ([((-74 : ℚ), (40 : ℚ)), (-73, 41)].map Prod.fst),
     jsMathMin ([((-74 : ℚ), (40 : ℚ)), (-73, 41)].map Prod.snd),
     jsMathMax ([((-74 : ℚ), (40 : ℚ)), (-73, 41)].map Prod.fst),
     jsMathMax ([((-74 : ℚ), (40 : ℚ)), (-73, 41)].map Prod.snd)] =
      [-74, 40, -73, 41] ∧
    (get_route_map "T" sampleRender sampleEnc sampleRouteMapBody).bounding_box =
      [-74.1, 39.9, -72.9, 41.1] := by
  have e1 : jsMathMin ((ReqBody.fields b).coordinates.map Prod.fst) = mLon := by
    rw [hc, List.map_cons]
    exact jsMathMin_eq _ _ _ (by simpa using hmLon.1) (by simpa using hmLon.2)
  have e2 : jsMathMax ((ReqBody.fields b).coordinates.map Prod.fst) = MLon := by
    rw [hc, List.map_cons]
    exact jsMathMax_eq _ _ _ (by simpa using hMLon.1) (by simpa using hMLon.2)
  have e3 : jsMathMin ((ReqBody.fields b).coordinates.map Prod.snd) = mLat := by
    rw [hc, List.map_cons]
    exact jsMathMin_eq _ _ _ (by simpa using hmLat.1) (by simpa using hmLat.2)
  have e4 : jsMathMax ((ReqBody.fields b).coordinates.map Prod.snd) = MLat := by
    rw [hc, List.map_cons]
    exact jsMathMax_eq _ _ _ (by simpa using hMLat.1) (by simpa using hMLat.2)
  refine ⟨?_, ?_, ?_, ?_⟩
  · simp only [get_route_map]
    rw [e1, e2, e3, e4]
    simp only [List.cons.injEq, and_true]
    and_intros <;> ring
  · simp only [get_route_map, paramString, joinSep, List.map]
    exact routeMapViewportStem _ _ _ _ _
  · norm_num [jsMathMin, jsMathMax, List.foldl, min_def, max_def]
  · norm_num [get_route_map, sampleRouteMapBody, ReqBody.fields,
      jsMathMin, jsMathMax, List.foldl, min_def, max_def]

/-- Witness for C2 at the spec's concrete coordinates. -/
theorem route_map_bounding_box_witness :
    (get_route_map "T" sampleRender sampleEnc sampleRouteMapBody).bounding_box =
      [(-74 : ℚ) - 0.1 * ((-73) - (-74)), 40 - 0.1 * (41 - 40),
       (-73) + 0.1 * ((-73) - (-74)), 41 + 0.1 * (41 - 40)] :=
  (route_map_bounding_box "T" sampleRender sampleEnc sampleRouteMapBody
    (-74, 40) [(-73, 41)] rfl (-74) (-73) 40 41
    (by norm_num) (by norm_num) (by norm_num) (by norm_num)).1

/-- Claim C3: for a `/api/chat` request with a (non-empty) string message
whose first model response has no tool-use block, the handler makes exactly
one model API call — with the history extended by the user message — and
returns `conversationHistory` equal to the input history plus exactly the
new user entry and the final assistant entry. -/
theorem apiChat_no_tools (modelApi : List Msg → ModelResponse)
    (call : String → String → Except String String) (fuel : Nat)
    (message : String) (history : List Msg) (hm : message ≠ "")
    (h0 : hasToolUse (modelApi (history ++ [userMsg message])).content = false) :
    apiChat modelApi call fuel message history =
      ChatOutcome.ok
        { response := (modelApi (history ++ [userMsg message])).content
          conversationHistory := history ++ [userMsg message,
            assistantMsg (modelApi (history ++ [userMsg message])).content]
          modelCallPayloads := [history ++ [userMsg message]] } ∧
    (history ++ [userMsg message,
      assistantMsg (modelApi (history ++ [userMsg message])).content]).length =
      history.length + 2 := by
  constructor
  · cases fuel with
    | zero => simp [apiChat, hm, chatLoop, h0]
    | succ n => simp [apiChat, hm, chatLoop, h0]
  · simp

/-- Witness for C3 with a model oracle that never requests tools. -/
theorem apiChat_no_tools_witness :
    apiChat sampleModelNoTools sampleCallOk 0 "hi" [] =
      ChatOutcome.ok
        { response := (sampleModelNoTools ([] ++ [userMsg "hi"])).content
          conversationHistory := [] ++ [userMsg "hi",
            assistantMsg (sampleModelNoTools ([] ++ [userMsg "hi"])).content]
          modelCallPayloads := [[] ++ [userMsg "hi"]] } :=
  (apiChat_no_tools sampleModelNoTools sampleCallOk 0 "hi" []
    (by decide) (by decide)).1

/-- Claim C9: whenever `/api/chat` succeeds, regardless of how many tool
rounds the loop ran, the returned `conversationHistory` is the input history
plus exactly the new user message and the final assistant content — the
loop's intermediate tool-use and tool-result messages never appear in it. -/
theorem apiChat_history_shape (modelApi : List Msg → ModelResponse)
    (call : String → String → Except String String) (fuel : Nat)
    (message : String) (history : List Msg) (r : ChatResult)
    (h : apiChat modelApi call fuel message history = ChatOutcome.ok r) :
    r.conversationHistory =
      history ++ [userMsg message, assistantMsg r.response] ∧
    r.conversationHistory.length = history.length + 2 := by
  by_cases hm : message = ""
  · simp [apiChat, hm] at h
  · rcases hcl : chatLoop modelApi call fuel (history ++ [userMsg message])
        (modelApi (history ++ [userMsg message])) [history ++ [userMsg message]]
      with _ | ⟨finalResponse, log⟩
    · simp [apiChat, hm, hcl] at h
    · simp only [apiChat, hm, hcl, if_neg, ite_false, ChatOutcome.ok.injEq] at h
      subst h
      refine ⟨rfl, by simp⟩

/-- Witness for C9 at a concrete successful chat exchange. -/
theorem apiChat_history_shape_witness :
    (ChatResult.mk (sampleModelNoTools [userMsg "hi"]).content
      [userMsg "hi", assistantMsg (sampleModelNoTools [userMsg "hi"]).content]
      [[userMsg "hi"]]).conversationHistory =
      [] ++ [userMsg "hi",
        assistantMsg (ChatResult.mk (sampleModelNoTools [userMsg "hi"]).content
          [userMsg "hi", assistantMsg (sampleModelNoTools [userMsg "hi"]).content]
          [[userMsg "hi"]]).response] :=
  (apiChat_history_shape sampleModelNoTools sampleCallOk 0 "hi" []
    (ChatResult.mk (sampleModelNoTools [userMsg "hi"]).content
      [userMsg "hi", assistantMsg (sampleModelNoTools [userMsg "hi"]).content]
      [[userMsg "hi"]]) (by decide)).1

/-- Claim C8: within one tool round, `handleToolCalls` issues exactly one
gateway POST per tool-use block — to the endpoint named by the block's tool
name, body `{arguments: block.input}` — and produces one tool result per
tool-use block, an `is_error:true` block with an error message replacing the
result when the call fails instead of aborting; the loop then appends the
model's tool-use message and a single user-role message carrying all of the
round's tool results before the next model call. -/
theorem handleToolCalls_contract (call : String → String → Except String String)
    (bs : List ContentBlock) (modelApi : List Msg → ModelResponse)
    (fuel : Nat) (msgs : List Msg) (log : List (List Msg))
    (resp : ModelResponse) (h : hasToolUse resp.content = true) :
    (handleToolCalls call bs).1 = bs.filterMap (fun blk =>
      match blk with
      | .toolUse _ nm inp => some { endpoint := nm, argumentsBody := inp }
      | .text _ => none) ∧
    (handleToolCalls call bs).2 = bs.filterMap (fun blk =>
      match blk with
      | .toolUse bid nm inp =>
        some (match call nm inp with
          | .ok d => { tool_use_id := bid, content := d, is_error := false }
          | .error m =>
            { tool_use_id := bid,
              content := "Error calling tool " ++ nm ++ ": " ++ m,
              is_error := true })
      | .text _ => none) ∧
    chatLoop modelApi call (fuel + 1) msgs resp log =
      chatLoop modelApi call fuel
        (msgs ++ [assistantMsg resp.content,
          toolResultsMsg (handleToolCalls call resp.content).2])
        (modelApi (msgs ++ [assistantMsg resp.content,
          toolResultsMsg (handleToolCalls call resp.content).2]))
        (log ++ [msgs ++ [assistantMsg resp.content,
          toolResultsMsg (handleToolCalls call resp.content).2]]) := by
  refine ⟨?_, ?_, ?_⟩
  · induction bs with
    | nil => rfl
    | cons b rest ih =>
      cases b with
      | text s => simpa [handleToolCalls] using ih
      | toolUse bid nm inp => simp [handleToolCalls, ih]
  · induction bs with
    | nil => rfl
    | cons b rest ih =>
      cases b with
      | text s => simpa [handleToolCalls] using ih
      | toolUse bid nm inp => simp [handleToolCalls, ih]
  · simp [chatLoop, h]

/-- Witness for C8 at a single tool-use block whose gateway call fails. -/
theorem handleToolCalls_contract_witness :
    hasToolUse sampleToolUseResponse.content = true ∧
    (handleToolCalls sampleCallFail sampleToolUseResponse.content).2 =
      sampleToolUseResponse.content.filterMap (fun blk =>
        match blk with
        | .toolUse bid nm inp =>
          some (match sampleCallFail nm inp with
            | .ok d => { tool_use_id := bid, content := d, is_error := false }
            | .error m =>
              { tool_use_id := bid,
                content := "Error calling tool " ++ nm ++ ": " ++ m,
                is_error := true })
        | .text _ => none) :=
  ⟨by decide,
   (handleToolCalls_contract sampleCallFail sampleToolUseResponse.content
     sampleModelNoTools 0 [] [] sampleToolUseResponse (by decide)).2.1⟩
